import Mathlib

/-!
Verification of `fracdiff/stat.py`: a stationarity tester built on two
hypothesis tests (ADF unit-root test, KPSS trend-stationarity test) and a
combining class that runs both and returns the conjunction of their verdicts.

The external statistical library (`statsmodels.tsa.stattools`) is modelled as
an opaque collaborator: a record of two functions, each returning either a
tuple of rationals (we use `ℚ` for the Python floats, so that the comparisons
against the threshold are decidable) or an error.  Python exceptions are
modelled with `Except Err`; the Python `print` side effect is modelled by
returning the list of emitted messages alongside the boolean result.
-/

/-- Errors: the `Exception(f'Unknown method {...}')` raised by the code, and
any failure raised by the statistical collaborator. -/
inductive Err where
  | unknownMethod (method : String)
  | collabFailure (msg : String)
deriving DecidableEq, Repr

/-- The external collaborator `statsmodels.tsa.stattools`.
`adfuller` returns a 6-tuple whose second component is the p-value;
`kpss` takes the series and the `nlags` argument and returns a 4-tuple
whose second component (`[1]`) is the p-value. -/
structure Collab where
  adfuller : List ℚ → Except Err (ℚ × ℚ × ℚ × ℚ × ℚ × ℚ)
  kpss : List ℚ → String → Except Err (ℚ × ℚ × ℚ × ℚ)

/-- `class StatTester`: holds the method string; `__init__` stores it
unvalidated, defaulting to `"ADF"`. -/
structure StatTester where
  method : String := "ADF"
deriving DecidableEq, Repr

/-- `StatTester.null_hypothesis` (property): `"unit-root"` for `"ADF"`,
`"trend-stationary"` for `"KPSS"`, otherwise raises `Unknown method`. -/
def StatTester.null_hypothesis (t : StatTester) : Except Err String :=
  if t.method = "ADF" then .ok "unit-root"
  else if t.method = "KPSS" then .ok "trend-stationary"
  else .error (.unknownMethod t.method)

/-- `StatTester.pvalue`: delegates to `stattools.adfuller(x)` (unpacking the
second tuple component) for `"ADF"`, to `stattools.kpss(x, nlags="auto")[1]`
for `"KPSS"`, otherwise raises `Unknown method`. -/
def StatTester.pvalue (t : StatTester) (c : Collab) (x : List ℚ) : Except Err ℚ :=
  if t.method = "ADF" then do
    let (_, pvalue, _, _, _, _) ← c.adfuller x
    return pvalue
  else if t.method = "KPSS" then do
    let r ← c.kpss x "auto"
    return r.2.1
  else .error (.unknownMethod t.method)

/-- `StatTester.is_stat`: reads `null_hypothesis` first (so an unknown method
raises there), then compares the computed p-value with the threshold
(the threshold parameter is named `pvalue` in the source):
strict `<` in the unit-root branch, `>=` in the trend-stationary branch. -/
def StatTester.is_stat (t : StatTester) (c : Collab) (x : List ℚ) (pvalue : ℚ) :
    Except Err Bool := do
  let nh ← t.null_hypothesis
  if nh = "unit-root" then
    let p ← t.pvalue c x
    return decide (p < pvalue)
  else if nh = "trend-stationary" then
    let p ← t.pvalue c x
    return decide (p ≥ pvalue)
  else
    .error (.unknownMethod t.method)

/-- `class StrictStatTester`: holds one ADF tester and one KPSS tester. -/
structure StrictStatTester where
  adf_test : StatTester
  kpss_test : StatTester
deriving DecidableEq, Repr

/-- `StrictStatTester.__init__`: fixed to `StatTester('ADF')` and
`StatTester('KPSS')`, with no parameters. -/
def StrictStatTester.init : StrictStatTester :=
  { adf_test := { method := "ADF" }, kpss_test := { method := "KPSS" } }

/-- `StrictStatTester.null_hypothesis` (property). -/
def StrictStatTester.null_hypothesis (_s : StrictStatTester) : String :=
  "unit-root and not trend-stationary"

/-- The message printed in the `not t1 and t2` branch of
`StrictStatTester.is_stat`. -/
def trendMsg : String := "Trend needs to be removed to make series strict stationary"

/-- The message printed in the `t1 and not t2` branch of
`StrictStatTester.is_stat`. -/
def diffMsg : String := "Series is difference stationary"

/-- `StrictStatTester.is_stat`: runs the ADF sub-test, then the KPSS sub-test
(each failure propagating), walks the four-branch `if/elif` chain — printing a
message in the two disagreement branches when `verbose > 0` — and returns
`t1 and t2`.  The printed messages are modelled as a returned list. -/
def StrictStatTester.is_stat (s : StrictStatTester) (c : Collab) (x : List ℚ)
    (pvalue : ℚ) (verbose : ℤ) : Except Err (Bool × List String) := do
  let t1 ← s.adf_test.is_stat c x pvalue
  let t2 ← s.kpss_test.is_stat c x pvalue
  let msgs :=
    if !t1 && !t2 then []
    else if t1 && t2 then []
    else if !t1 && t2 then
      if verbose > 0 then [trendMsg] else []
    else if t1 && !t2 then
      if verbose > 0 then [diffMsg] else []
    else []
  return (t1 && t2, msgs)

/-- The four outcome classes named by the specification. -/
inductive OutcomeClass where
  | BothNonStationary
  | BothStationary
  | TrendStationaryOnly
  | DifferenceStationary
deriving DecidableEq, Repr

/-- The branch structure of `StrictStatTester.is_stat`, read off the source's
`if/elif` chain over the verdict pair `(t1, t2)`; `none` would mean a verdict
pair matched by no branch. -/
def classifyOutcome (t1 t2 : Bool) : Option OutcomeClass :=
  if !t1 && !t2 then some .BothNonStationary
  else if t1 && t2 then some .BothStationary
  else if !t1 && t2 then some .TrendStationaryOnly
  else if t1 && !t2 then some .DifferenceStationary
  else none

/-- Modelled from the spec: the truth table of §4.2, mapping the verdict pair
`(unitRootVerdict, trendStationaryVerdict)` to its OutcomeClass. -/
def outcomeSpec (t1 t2 : Bool) : OutcomeClass :=
  match t1, t2 with
  | false, false => .BothNonStationary
  | true, true => .BothStationary
  | false, true => .TrendStationaryOnly
  | true, false => .DifferenceStationary

/-- A collaborator that always succeeds, with fixed p-values `pa` (ADF) and
`pk` (KPSS); used to evaluate the theorems on concrete inputs. -/
def constCollab (pa pk : ℚ) : Collab :=
  { adfuller := fun _ => .ok (0, pa, 0, 0, 0, 0)
    kpss := fun _ _ => .ok (0, pk, 0, 0) }

/-- A collaborator whose two tests both fail with a fixed error. -/
def failCollab (e : Err) : Collab :=
  { adfuller := fun _ => .error e, kpss := fun _ _ => .error e }

/-- A collaborator whose ADF test succeeds (p-value `pa`) and whose KPSS test
fails with `e`. -/
def kpssFailCollab (pa : ℚ) (e : Err) : Collab :=
  { adfuller := fun _ => .ok (0, pa, 0, 0, 0, 0), kpss := fun _ _ => .error e }

/-- C1: for every collaborator, series, threshold and verbosity, once the two
sub-tests return verdicts `t1` (ADF) and `t2` (KPSS), `StrictStatTester.is_stat`
returns `t1 && t2` (true only in the BothStationary case), and the branch
structure selects exactly one OutcomeClass, matching the truth table of §4.2
with no overlapping and no missing case. -/
theorem strict_combined_verdict_truth_table
    (c : Collab) (x : List ℚ) (pv : ℚ) (verbose : ℤ) (t1 t2 : Bool)
    (h1 : StatTester.is_stat { method := "ADF" } c x pv = .ok t1)
    (h2 : StatTester.is_stat { method := "KPSS" } c x pv = .ok t2) :
    (∃ msgs, StrictStatTester.init.is_stat c x pv verbose = .ok (t1 && t2, msgs)) ∧
    classifyOutcome t1 t2 = some (outcomeSpec t1 t2) := by
  refine ⟨⟨if !t1 && !t2 then [] else if t1 && t2 then []
    else if !t1 && t2 then (if verbose > 0 then [trendMsg] else [])
    else if t1 && !t2 then (if verbose > 0 then [diffMsg] else []) else [], ?_⟩,
    by cases t1 <;> cases t2 <;> rfl⟩
  simp [StrictStatTester.is_stat, StrictStatTester.init, h1, h2, bind, Except.bind,
    pure, Except.pure]

/-- C1 witness: concrete run with both sub-test p-values conclusive
(ADF p-value 0 < threshold 1, KPSS p-value 1 ≥ threshold 1). -/
theorem strict_combined_verdict_truth_table_witness :
    (∃ msgs, StrictStatTester.init.is_stat (constCollab 0 1) [] 1 1 =
      .ok (true && true, msgs)) ∧
    classifyOutcome true true = some (outcomeSpec true true) :=
  strict_combined_verdict_truth_table (constCollab 0 1) [] 1 1 true true
    (by rfl) (by rfl)

/-- Helper: the ADF verdict is the strict comparison `p < threshold` mapped
over the p-value computation. -/
theorem adf_is_stat_eq (c : Collab) (x : List ℚ) (th : ℚ) :
    StatTester.is_stat { method := "ADF" } c x th =
      (StatTester.pvalue { method := "ADF" } c x).map (fun p => decide (p < th)) := by
  cases h : StatTester.pvalue { method := "ADF" } c x <;>
    simp [StatTester.is_stat, StatTester.null_hypothesis, h, bind, Except.bind,
      pure, Except.pure, Except.map]

/-- Helper: the KPSS verdict is the comparison `p ≥ threshold` mapped over the
p-value computation. -/
theorem kpss_is_stat_eq (c : Collab) (x : List ℚ) (th : ℚ) :
    StatTester.is_stat { method := "KPSS" } c x th =
      (StatTester.pvalue { method := "KPSS" } c x).map (fun p => decide (p ≥ th)) := by
  cases h : StatTester.pvalue { method := "KPSS" } c x <;>
    simp [StatTester.is_stat, StatTester.null_hypothesis, h, bind, Except.bind,
      pure, Except.pure, Except.map]

/-- C2: once the p-value computation yields `pA` (ADF) resp. `pK` (KPSS), the
ADF verdict is true iff `pA < threshold` and the KPSS verdict is true iff
`pK ≥ threshold`; in particular at `pvalue == threshold` the ADF verdict is
false and the KPSS verdict is true. -/
theorem directionality_law (c : Collab) (x : List ℚ) (th pA pK : ℚ)
    (hA : StatTester.pvalue { method := "ADF" } c x = .ok pA)
    (hK : StatTester.pvalue { method := "KPSS" } c x = .ok pK) :
    (StatTester.is_stat { method := "ADF" } c x th = .ok true ↔ pA < th) ∧
    (StatTester.is_stat { method := "KPSS" } c x th = .ok true ↔ pK ≥ th) ∧
    StatTester.is_stat { method := "ADF" } c x pA = .ok false ∧
    StatTester.is_stat { method := "KPSS" } c x pK = .ok true := by
  refine ⟨?_, ?_, ?_, ?_⟩
  · rw [adf_is_stat_eq, hA]; simp [Except.map]
  · rw [kpss_is_stat_eq, hK]; simp [Except.map]
  · rw [adf_is_stat_eq, hA]; simp [Except.map]
  · rw [kpss_is_stat_eq, hK]; simp [Except.map]

/-- C2 witness: concrete collaborator with ADF p-value 0 and KPSS p-value 2,
threshold 1. -/
theorem directionality_law_witness :
    (StatTester.is_stat { method := "ADF" } (constCollab 0 2) [] 1 = .ok true ↔
      (0 : ℚ) < 1) ∧
    (StatTester.is_stat { method := "KPSS" } (constCollab 0 2) [] 1 = .ok true ↔
      (2 : ℚ) ≥ 1) ∧
    StatTester.is_stat { method := "ADF" } (constCollab 0 2) [] 0 = .ok false ∧
    StatTester.is_stat { method := "KPSS" } (constCollab 0 2) [] 2 = .ok true :=
  directionality_law (constCollab 0 2) [] 1 0 2 (by rfl) (by rfl)

/-- C3 counterexample: with KPSS p-value 1, raising the threshold from 1 to 2
flips the KPSS (TrendStationary) verdict from true to false, so that verdict
is not a monotone non-decreasing function of the threshold. -/
theorem kpss_not_nondecreasing_cex :
    (1 : ℚ) ≤ 2 ∧
    StatTester.is_stat { method := "KPSS" } (constCollab 0 1) [] 1 = .ok true ∧
    StatTester.is_stat { method := "KPSS" } (constCollab 0 1) [] 2 = .ok false :=
  ⟨by norm_num, by rfl, by rfl⟩

/-- C3 (amended): raising the threshold cannot change a UnitRoot (ADF) verdict
from true to false, and cannot change a TrendStationary (KPSS) verdict from
false to true: the ADF verdict is monotone non-decreasing in the threshold and
the KPSS verdict is monotone non-increasing. -/
theorem threshold_monotonicity (c : Collab) (x : List ℚ) (th th' : ℚ)
    (hle : th ≤ th') (bA bA' bK bK' : Bool)
    (hA : StatTester.is_stat { method := "ADF" } c x th = .ok bA)
    (hA' : StatTester.is_stat { method := "ADF" } c x th' = .ok bA')
    (hK : StatTester.is_stat { method := "KPSS" } c x th = .ok bK)
    (hK' : StatTester.is_stat { method := "KPSS" } c x th' = .ok bK') :
    (bA = true → bA' = true) ∧ (bK = false → bK' = false) := by
  rw [adf_is_stat_eq] at hA hA'
  rw [kpss_is_stat_eq] at hK hK'
  cases hpA : StatTester.pvalue { method := "ADF" } c x with
  | error e => rw [hpA] at hA; simp [Except.map] at hA
  | ok pA =>
    cases hpK : StatTester.pvalue { method := "KPSS" } c x with
    | error e => rw [hpK] at hK; simp [Except.map] at hK
    | ok pK =>
      rw [hpA] at hA hA'
      rw [hpK] at hK hK'
      simp only [Except.map, Except.ok.injEq] at hA hA' hK hK'
      subst hA hA' hK hK'
      constructor
      · simp only [decide_eq_true_eq]
        exact fun h => lt_of_lt_of_le h hle
      · simp only [decide_eq_false_iff_not, ge_iff_le, not_le]
        exact fun h => lt_of_lt_of_le h hle

/-- C3 witness: ADF p-value 0 and KPSS p-value 2 at thresholds 1 ≤ 2. -/
theorem threshold_monotonicity_witness :
    (true = true → true = true) ∧ (true = false → true = false) :=
  threshold_monotonicity (constCollab 0 2) [] 1 2 (by norm_num) true true true true
    (by rfl) (by rfl) (by rfl) (by rfl)

/-- C4: for a method value other than "ADF" and "KPSS", each of
null_hypothesis, pvalue and is_stat raises the UnknownMethod error carrying
that method; none of them defaults to a recognized method. -/
theorem unknown_method_all_ops (m : String) (c : Collab) (x : List ℚ) (th : ℚ)
    (h1 : m ≠ "ADF") (h2 : m ≠ "KPSS") :
    StatTester.null_hypothesis { method := m } = .error (.unknownMethod m) ∧
    StatTester.pvalue { method := m } c x = .error (.unknownMethod m) ∧
    StatTester.is_stat { method := m } c x th = .error (.unknownMethod m) := by
  refine ⟨?_, ?_, ?_⟩ <;>
    simp [StatTester.null_hypothesis, StatTester.pvalue, StatTester.is_stat, h1, h2,
      bind, Except.bind]

/-- C4 witness: the unrecognized method "bogus". -/
theorem unknown_method_all_ops_witness :
    StatTester.null_hypothesis { method := "bogus" } = .error (.unknownMethod "bogus") ∧
    StatTester.pvalue { method := "bogus" } (constCollab 0 0) [] = .error (.unknownMethod "bogus") ∧
    StatTester.is_stat { method := "bogus" } (constCollab 0 0) [] 1 = .error (.unknownMethod "bogus") :=
  unknown_method_all_ops "bogus" (constCollab 0 0) [] 1 (by decide) (by decide)

/-- C5: a diagnostic message is emitted iff the verdict pair disagrees and
diagnostics are enabled (`verbose > 0`); the TrendStationaryOnly case emits the
detrend message, the DifferenceStationary case emits the difference message,
the two messages differ, and the agreement cases emit nothing. -/
theorem diagnostics_iff_disagreement (c : Collab) (x : List ℚ) (pv : ℚ) (verbose : ℤ)
    (t1 t2 b : Bool) (msgs : List String)
    (h1 : StatTester.is_stat { method := "ADF" } c x pv = .ok t1)
    (h2 : StatTester.is_stat { method := "KPSS" } c x pv = .ok t2)
    (h : StrictStatTester.init.is_stat c x pv verbose = .ok (b, msgs)) :
    (msgs ≠ [] ↔ (t1 ≠ t2 ∧ 0 < verbose)) ∧
    (t1 = false → t2 = true → 0 < verbose → msgs = [trendMsg]) ∧
    (t1 = true → t2 = false → 0 < verbose → msgs = [diffMsg]) ∧
    trendMsg ≠ diffMsg := by
  have hM : StrictStatTester.init.is_stat c x pv verbose = .ok (t1 && t2,
      if !t1 && !t2 then [] else if t1 && t2 then []
      else if !t1 && t2 then (if verbose > 0 then [trendMsg] else [])
      else if t1 && !t2 then (if verbose > 0 then [diffMsg] else []) else []) := by
    simp [StrictStatTester.is_stat, StrictStatTester.init, h1, h2, bind, Except.bind,
      pure, Except.pure]
  have hpair := hM.symm.trans h
  simp only [Except.ok.injEq, Prod.mk.injEq] at hpair
  obtain ⟨-, hm⟩ := hpair
  subst hm
  have hne : trendMsg ≠ diffMsg := by simp [trendMsg, diffMsg]
  rcases lt_or_le 0 verbose with hv | hv <;>
    cases t1 <;> cases t2 <;>
    simp [hv, not_lt.mpr, hne]

/-- C5 witness: ADF p-value 0 and KPSS p-value 0 at threshold 1 give the
disagreement pair (true, false), and with verbose 1 the difference message is
emitted. -/
theorem diagnostics_iff_disagreement_witness :
    ([diffMsg] ≠ ([] : List String) ↔ (true ≠ false ∧ (0 : ℤ) < 1)) ∧
    (true = false → false = true → (0 : ℤ) < 1 → [diffMsg] = [trendMsg]) ∧
    (true = true → false = false → (0 : ℤ) < 1 → [diffMsg] = [diffMsg]) ∧
    trendMsg ≠ diffMsg :=
  diagnostics_iff_disagreement (constCollab 0 0) [] 1 1 true false false [diffMsg]
    (by rfl) (by rfl) (by rfl)

/-- C6: null_hypothesis is a pure function of the stored method alone (it takes
no series or threshold, and testers with equal methods agree), returning
"unit-root" for "ADF" and "trend-stationary" for "KPSS". -/
theorem null_hypothesis_pure_of_method :
    StatTester.null_hypothesis { method := "ADF" } = .ok "unit-root" ∧
    StatTester.null_hypothesis { method := "KPSS" } = .ok "trend-stationary" ∧
    ∀ t : StatTester, t.null_hypothesis = StatTester.null_hypothesis { method := t.method } :=
  ⟨rfl, rfl, fun _ => rfl⟩

/-- C7: pvalue projects exactly the second component of the collaborator's
tuple (adfuller for "ADF", kpss with nlags "auto" for "KPSS"), and a
collaborator failure propagates unchanged through pvalue, is_stat and
StrictStatTester.is_stat, with no fallback or partial result. -/
theorem pvalue_projection_and_propagation
    (c cA cK : Collab) (x : List ℚ) (th : ℚ) (verbose : ℤ)
    (a p u n cv ic s pk l crit : ℚ) (e eK : Err) (t1 : Bool)
    (hA : c.adfuller x = .ok (a, p, u, n, cv, ic))
    (hK : c.kpss x "auto" = .ok (s, pk, l, crit))
    (hEA : cA.adfuller x = .error e)
    (hEK : cK.kpss x "auto" = .error eK)
    (hOK : StatTester.is_stat { method := "ADF" } cK x th = .ok t1) :
    StatTester.pvalue { method := "ADF" } c x = .ok p ∧
    StatTester.pvalue { method := "KPSS" } c x = .ok pk ∧
    StatTester.pvalue { method := "ADF" } cA x = .error e ∧
    StatTester.is_stat { method := "ADF" } cA x th = .error e ∧
    StrictStatTester.init.is_stat cA x th verbose = .error e ∧
    StatTester.pvalue { method := "KPSS" } cK x = .error eK ∧
    StatTester.is_stat { method := "KPSS" } cK x th = .error eK ∧
    StrictStatTester.init.is_stat cK x th verbose = .error eK := by
  have pA : StatTester.pvalue { method := "ADF" } c x = .ok p := by
    simp [StatTester.pvalue, hA, bind, Except.bind, pure, Except.pure]
  have pK : StatTester.pvalue { method := "KPSS" } c x = .ok pk := by
    simp [StatTester.pvalue, hK, bind, Except.bind, pure, Except.pure]
  have pEA : StatTester.pvalue { method := "ADF" } cA x = .error e := by
    simp [StatTester.pvalue, hEA, bind, Except.bind]
  have pEK : StatTester.pvalue { method := "KPSS" } cK x = .error eK := by
    simp [StatTester.pvalue, hEK, bind, Except.bind]
  have iEA : StatTester.is_stat { method := "ADF" } cA x th = .error e := by
    rw [adf_is_stat_eq, pEA]; rfl
  have iEK : StatTester.is_stat { method := "KPSS" } cK x th = .error eK := by
    rw [kpss_is_stat_eq, pEK]; rfl
  refine ⟨pA, pK, pEA, iEA, ?_, pEK, iEK, ?_⟩
  · simp [StrictStatTester.is_stat, StrictStatTester.init, iEA, bind, Except.bind]
  · simp [StrictStatTester.is_stat, StrictStatTester.init, hOK, iEK, bind, Except.bind]

/-- C7 witness: a successful collaborator with p-values 0, a collaborator whose
two tests fail, and a collaborator whose ADF test succeeds while its KPSS test
fails. -/
theorem pvalue_projection_and_propagation_witness :
    StatTester.pvalue { method := "ADF" } (constCollab 0 0) [] = .ok 0 ∧
    StatTester.pvalue { method := "KPSS" } (constCollab 0 0) [] = .ok 0 ∧
    StatTester.pvalue { method := "ADF" } (failCollab (.collabFailure "too few observations")) [] =
      .error (.collabFailure "too few observations") ∧
    StatTester.is_stat { method := "ADF" } (failCollab (.collabFailure "too few observations")) [] 1 =
      .error (.collabFailure "too few observations") ∧
    StrictStatTester.init.is_stat (failCollab (.collabFailure "too few observations")) [] 1 1 =
      .error (.collabFailure "too few observations") ∧
    StatTester.pvalue { method := "KPSS" } (kpssFailCollab 0 (.collabFailure "divergent")) [] =
      .error (.collabFailure "divergent") ∧
    StatTester.is_stat { method := "KPSS" } (kpssFailCollab 0 (.collabFailure "divergent")) [] 1 =
      .error (.collabFailure "divergent") ∧
    StrictStatTester.init.is_stat (kpssFailCollab 0 (.collabFailure "divergent")) [] 1 1 =
      .error (.collabFailure "divergent") :=
  pvalue_projection_and_propagation (constCollab 0 0)
    (failCollab (.collabFailure "too few observations"))
    (kpssFailCollab 0 (.collabFailure "divergent")) [] 1 1
    0 0 0 0 0 0 0 0 0 0 (.collabFailure "too few observations") (.collabFailure "divergent") true
    (by rfl) (by rfl) (by rfl) (by rfl) (by rfl)

/-- C8: the Except-valued boolean result of StrictStatTester.is_stat is
independent of the verbosity setting: two runs differing only in `verbose`
return the same combined verdict (and the same error, when one occurs); the
toggle affects only the emitted messages. -/
theorem verbose_noninterference (c : Collab) (x : List ℚ) (pv : ℚ) (v v' : ℤ) :
    (StrictStatTester.init.is_stat c x pv v).map Prod.fst =
    (StrictStatTester.init.is_stat c x pv v').map Prod.fst := by
  cases h1 : StatTester.is_stat { method := "ADF" } c x pv with
  | error e =>
    simp [StrictStatTester.is_stat, StrictStatTester.init, h1, bind, Except.bind, Except.map]
  | ok t1 =>
    cases h2 : StatTester.is_stat { method := "KPSS" } c x pv with
    | error e =>
      simp [StrictStatTester.is_stat, StrictStatTester.init, h1, h2, bind, Except.bind,
        Except.map]
    | ok t2 =>
      simp [StrictStatTester.is_stat, StrictStatTester.init, h1, h2, bind, Except.bind,
        pure, Except.pure, Except.map]

/-- C9: construction never fails and stores the method unvalidated, for every
method value; the UnknownMethod error surfaces only when an operation is
invoked afterwards. -/
theorem construction_stores_method_unvalidated (m : String)
    (h1 : m ≠ "ADF") (h2 : m ≠ "KPSS") :
    (∀ mv : String, (StatTester.mk mv).method = mv) ∧
    StatTester.null_hypothesis { method := m } = .error (.unknownMethod m) := by
  refine ⟨fun _ => rfl, ?_⟩
  simp [StatTester.null_hypothesis, h1, h2]

/-- C9 witness: the unrecognized method "bogus" is stored at construction, and
the error surfaces at null_hypothesis. -/
theorem construction_stores_method_unvalidated_witness :
    (∀ mv : String, (StatTester.mk mv).method = mv) ∧
    StatTester.null_hypothesis { method := "bogus" } = .error (.unknownMethod "bogus") :=
  construction_stores_method_unvalidated "bogus" (by decide) (by decide)

/-- C10: a StatTester built with no method argument has method "ADF" and
behaves identically to one built explicitly with "ADF": same null hypothesis
"unit-root", same p-value delegation, and the same unit-root comparison
direction in is_stat. -/
theorem default_method_is_adf (c : Collab) (x : List ℚ) (th : ℚ) :
    ({} : StatTester).method = "ADF" ∧
    ({} : StatTester).null_hypothesis = .ok "unit-root" ∧
    ({} : StatTester).pvalue c x = StatTester.pvalue { method := "ADF" } c x ∧
    ({} : StatTester).is_stat c x th = StatTester.is_stat { method := "ADF" } c x th :=
  ⟨rfl, rfl, rfl, rfl⟩
